import Mathlib

/-
Shallow embedding of src/DigiAndQuote.py (DigiReceipt invoice/quote generator).

The SQLite tables `invoices` and `invoices_full` are modelled as Lean lists in
insertion (rowid) order inside a `DB` structure.  `SELECT ... ORDER BY id DESC
LIMIT 1` becomes `List.getLast?`; an unordered `SELECT ... WHERE` with
`fetchone()` becomes `List.find?` (SQLite returns rows in rowid order here);
`INSERT` appends at the end of the list.  `json.dumps`/`json.loads` round-trip
the stored document unchanged, so the serialized `invoice_json` column is
modelled as carrying the document value itself.  Python's `int(str)` is
modelled by `pythonInt` (strip whitespace, optional sign, digits with
underscore separators) and the f-string `f"{n:04d}"` by `pyFormat04d`.
Python floats entering the totals are modelled as rationals.
-/

/-- Whitespace characters stripped by Python's int() conversion (ASCII part). -/
def isPySpace (c : Char) : Bool :=
  c == ' ' || c == '\t' || c == '\n' || c == '\r' || c == '\x0b' || c == '\x0c'

/-- Strip leading and trailing whitespace, as Python int() does on its input. -/
def stripWs (l : List Char) : List Char :=
  ((l.dropWhile isPySpace).reverse.dropWhile isPySpace).reverse

/-- Numeric value of a big-endian list of decimal digit characters. -/
def digitsVal (l : List Char) : Nat :=
  l.foldl (fun a c => 10 * a + (c.toNat - 48)) 0

/-- After an initial digit: Python allows single underscores strictly between
digits of an integer literal accepted by int(). -/
def digitsTail : List Char → Bool
  | [] => true
  | c :: rest =>
    if c = '_' then
      match rest with
      | [] => false
      | d :: r => d.isDigit && digitsTail r
    else
      c.isDigit && digitsTail rest

/-- A nonempty digit string as accepted by Python int() (after sign removal). -/
def digitsOk : List Char → Bool
  | [] => false
  | c :: rest => c.isDigit && digitsTail rest

/-- Core of Python's int(str) on an already-stripped character list. -/
def pythonIntCore : List Char → Option Int
  | [] => none
  | c :: rest =>
    if c = '+' then
      if digitsOk rest then
        some ((digitsVal (rest.filter (fun x => x != '_')) : Nat) : Int)
      else none
    else if c = '-' then
      if digitsOk rest then
        some (-((digitsVal (rest.filter (fun x => x != '_')) : Nat) : Int))
      else none
    else
      if digitsOk (c :: rest) then
        some ((digitsVal ((c :: rest).filter (fun x => x != '_')) : Nat) : Int)
      else none

/-- Python's int(str): `some n` on success, `none` when int() raises ValueError. -/
def pythonInt (s : String) : Option Int :=
  pythonIntCore (stripWs s.data)

/-- The decimal digit character for d < 10. -/
def digitChar (d : Nat) : Char := Char.ofNat (48 + d)

/-- Big-endian decimal digits of a natural number (recursion used in proofs). -/
def natDecimal (n : Nat) : List Char :=
  if _h : n < 10 then [digitChar n]
  else natDecimal (n / 10) ++ [digitChar (n % 10)]
termination_by n
decreasing_by exact Nat.div_lt_self (by omega) (by omega)

/-- Fuel-driven version of natDecimal that the kernel evaluates directly. -/
def natDecimalCore : Nat → Nat → List Char → List Char
  | 0, _, acc => acc
  | fuel + 1, n, acc =>
    if n < 10 then digitChar n :: acc
    else natDecimalCore fuel (n / 10) (digitChar (n % 10) :: acc)

/-- Executable big-endian decimal digits of a natural number. -/
def pyDecimal (n : Nat) : List Char := natDecimalCore (n + 1) n []

/-- Left-pad a character list with copies of c up to width w. -/
def leftPad (w : Nat) (c : Char) (l : List Char) : List Char :=
  List.replicate (w - l.length) c ++ l

/-- Python's format spec 04d: zero-pad to total width 4, sign included. -/
def pyFormat04d (n : Int) : String :=
  if n < 0 then String.mk ('-' :: leftPad 3 '0' (pyDecimal n.natAbs))
  else String.mk (leftPad 4 '0' (pyDecimal n.toNat))

/-- Vendor block of the invoice_data session dictionary. -/
structure Vendor where
  name : String
  address : String
  phone : String
  ntn : String
deriving DecidableEq

/-- Client block of the invoice_data session dictionary. -/
structure Client where
  name : String
  address : String
  phone : String
  ntn : String
  notes : String
deriving DecidableEq

/-- One item row as entered in the form (name, quantity, price). -/
structure Item where
  name : String
  quantity : Int
  price : ℚ
deriving DecidableEq

/-- One item row as stored in the assembled document, with its line_total
field set to quantity * price (line 503 of the source). -/
structure DocItem where
  name : String
  quantity : Int
  price : ℚ
  line_total : ℚ
deriving DecidableEq

/-- The invoice_info sub-dictionary written at generation time. -/
structure InvoiceInfo where
  invoice_no : String
  date : String
  timestamp : String
deriving DecidableEq

/-- The complete assembled invoice/quote document (the invoice_data dict as
serialized into the invoices_full table). -/
structure InvoiceDoc where
  vendor : Vendor
  client : Client
  items : List DocItem
  doc_type : String
  invoice_info : InvoiceInfo
  subtotal : ℚ
  discount : ℚ
  grand_total : ℚ
deriving DecidableEq

/-- The editable draft held in session state before generation. -/
structure Draft where
  vendor : Vendor
  client : Client
  items : List Item
  doc_type : String
deriving DecidableEq

/-- One row of the invoices summary table. -/
structure SummaryRow where
  timestamp : String
  vendor : String
  invoice_no : String
  total : ℚ
  user_id : String
deriving DecidableEq

/-- One row of the invoices_full table (invoice_json carries the document). -/
structure FullRow where
  timestamp : String
  invoice_no : String
  invoice_json : InvoiceDoc
  user_id : String
deriving DecidableEq

/-- The database: both tables in insertion (rowid) order. -/
structure DB where
  invoices : List SummaryRow
  invoices_full : List FullRow
deriving DecidableEq

/-- log_invoice (source lines 83-92): one commit inserting the summary row and
the full-document row. -/
def log_invoice (db : DB) (timestamp vendor invoice_no : String) (total : ℚ)
    (doc : InvoiceDoc) (user_id : String) : DB :=
  ⟨db.invoices ++ [⟨timestamp, vendor, invoice_no, total, user_id⟩],
   db.invoices_full ++ [⟨timestamp, invoice_no, doc, user_id⟩]⟩

/-- get_invoices_from_db (source lines 95-100): all summary rows of one user. -/
def get_invoices_from_db (user_id : String) (db : DB) : List SummaryRow :=
  db.invoices.filter (fun r => r.user_id == user_id)

/-- get_last_invoice_no_from_db (source lines 103-117): invoice_no of the most
recently inserted summary row, int-parsed, with fallback 0. -/
def get_last_invoice_no_from_db (db : DB) : Int :=
  match db.invoices.getLast? with
  | none => 0
  | some r =>
    match pythonInt r.invoice_no with
    | some v => v
    | none => 0

/-- get_full_invoice_data (source lines 120-129): first invoices_full row
matching both invoice_no and user_id, if any. -/
def get_full_invoice_data (invoice_no user_id : String) (db : DB) :
    Option InvoiceDoc :=
  (db.invoices_full.find?
      (fun r => r.invoice_no == invoice_no && r.user_id == user_id)).map
    (fun r => r.invoice_json)

/-- The fresh invoice number of the generation branch (source lines 544-546). -/
def next_number (db : DB) : String :=
  pyFormat04d (get_last_invoice_no_from_db db + 1)

/-- line_total = quantity * price (source line 501). -/
def line_total_of (it : Item) : ℚ := (it.quantity : ℚ) * it.price

/-- subtotal accumulated over the item rows (source lines 490-504). -/
def subtotal (items : List Item) : ℚ := (items.map line_total_of).sum

/-- The item dictionary after line 503 set its line_total field. -/
def assembleItem (it : Item) : DocItem :=
  ⟨it.name, it.quantity, it.price, (it.quantity : ℚ) * it.price⟩

/-- First validation loop (source lines 516-521): some item has a non-empty
name but quantity <= 0 or price <= 0. -/
def incomplete_item_exists (items : List Item) : Bool :=
  items.any (fun it =>
    !(it.name == "") && (decide (it.quantity ≤ 0) || decide (it.price ≤ 0)))

/-- Second validation check (source lines 530-533): some item has a non-empty
name, quantity > 0 and price > 0. -/
def is_valid_items (items : List Item) : Bool :=
  items.any (fun it =>
    !(it.name == "") && decide (0 < it.quantity) && decide (0 < it.price))

/-- The item list passes both validation gates of the generation handler. -/
def accepts (items : List Item) : Bool :=
  !incomplete_item_exists items && is_valid_items items

/-- The invoice_data dictionary as completed at source lines 550-559. -/
def assembleDoc (db : DB) (draft : Draft) (discount : ℚ) (ts date : String) :
    InvoiceDoc :=
  ⟨draft.vendor, draft.client, draft.items.map assembleItem, draft.doc_type,
   ⟨next_number db, date, ts⟩, subtotal draft.items, discount,
   subtotal draft.items - discount⟩

/-- The generation handler (source lines 514-562): validation gates, then
number generation, document assembly and the log_invoice append.  Returns the
new database state and the generated document (none on rejection). -/
def generate (db : DB) (draft : Draft) (discount : ℚ) (user_id ts date : String) :
    DB × Option InvoiceDoc :=
  if incomplete_item_exists draft.items then (db, none)
  else if is_valid_items draft.items then
    (log_invoice db ts draft.vendor.name (next_number db)
        (subtotal draft.items - discount)
        (assembleDoc db draft discount ts date) user_id,
     some (assembleDoc db draft discount ts date))
  else (db, none)

/-- Database states reachable by the application from a fresh database: the
generation handler is the only writer. -/
inductive Reachable : DB → Prop
  | init : Reachable ⟨[], []⟩
  | step (db : DB) (draft : Draft) (discount : ℚ) (uid ts date : String) :
      Reachable db → Reachable (generate db draft discount uid ts date).1

/-- A summary row and a full row recording the same committed append. -/
def rowsMatch (s : SummaryRow) (f : FullRow) : Prop :=
  s.invoice_no = f.invoice_no ∧ s.timestamp = f.timestamp ∧
  s.user_id = f.user_id ∧ s.total = f.invoice_json.grand_total

/-- Claim C1 reading of the sequence generator, following the spec words: the
highest invoice number across all records, parsed as an integer, plus one,
zero-padded (the source instead reads the most recently inserted row). -/
def specHighestNext (db : DB) : String :=
  pyFormat04d
    ((db.invoices.map (fun r => (pythonInt r.invoice_no).getD 0)).foldl max 0 + 1)

/-- A character that is a decimal digit, hence none of the special characters
treated separately by the int() model. -/
def GoodDigit (c : Char) : Prop :=
  c.isDigit = true ∧ c ≠ '_' ∧ c ≠ '+' ∧ c ≠ '-' ∧ isPySpace c = false

instance (c : Char) : Decidable (GoodDigit c) := by
  unfold GoodDigit
  infer_instance

/-- A small vendor record used in concrete instances. -/
def exVendor : Vendor := ⟨"Shop", "Addr", "111", "NTN"⟩

/-- An empty client record used in concrete instances. -/
def exClient : Client := ⟨"", "", "", "", ""⟩

/-- A draft with one fully valid item. -/
def exDraft : Draft := ⟨exVendor, exClient, [⟨"Widget", 1, 2⟩], "invoice"⟩

/-- Database in which the most recently inserted invoice number (0003) is not
the highest one (0009), across two different owners. -/
def c1db : DB :=
  ⟨[⟨"t1", "Shop", "0009", 1, "alice"⟩, ⟨"t2", "Shop", "0003", 1, "bob"⟩], []⟩

/-- Most recent summary row holds invoice number 0007. -/
def c1wdb : DB := ⟨[⟨"t", "Shop", "0007", 1, "u"⟩], []⟩

/-- Item list with one fully valid item and one named item whose price is 0. -/
def c2items : List Item := [⟨"A", 1, 1⟩, ⟨"B", 1, 0⟩]

/-- Draft carrying the spec example items qty 2 x 10.0 and qty 1 x 5.0. -/
def c3draft : Draft :=
  ⟨exVendor, exClient, [⟨"Widget", 2, 10⟩, ⟨"Gadget", 1, 5⟩], "invoice"⟩

/-- A stored document under invoice number 0001 and owner u. -/
def c4docA : InvoiceDoc :=
  ⟨exVendor, exClient, [], "invoice", ⟨"0001", "d", "t"⟩, 0, 0, 0⟩

/-- A different document that also carries invoice number 0001. -/
def c4docB : InvoiceDoc :=
  ⟨⟨"Other", "Addr", "222", "N"⟩, exClient, [], "invoice",
   ⟨"0001", "d2", "t2"⟩, 5, 0, 5⟩

/-- Database already holding c4docA under key (0001, u). -/
def c4db : DB := ⟨[⟨"t", "Shop", "0001", 0, "u"⟩], [⟨"t", "0001", c4docA, "u"⟩]⟩

/-- Most recent summary row holds a non-numeric invoice number. -/
def c5db : DB := ⟨[⟨"t", "Shop", "INV-7", 1, "u"⟩], []⟩

/-- Database with summary rows of two different owners. -/
def c6db : DB :=
  ⟨[⟨"t1", "Shop", "0001", 1, "u1"⟩, ⟨"t2", "Shop", "0002", 1, "u2"⟩], []⟩

/-- The u1-owned row of c6db. -/
def c6row : SummaryRow := ⟨"t1", "Shop", "0001", 1, "u1"⟩

/-- Draft whose only item has a name but quantity 0 (first rejection branch). -/
def c8draft : Draft := ⟨exVendor, exClient, [⟨"A", 0, 1⟩], "invoice"⟩

/-- The database state after one successful generation from a fresh database. -/
def s1 : DB := (generate ⟨[], []⟩ exDraft 0 "u" "t0" "d0").1

theorem goodDigit_digitChar (d : Nat) (h : d < 10) : GoodDigit (digitChar d) := by
  interval_cases d <;> decide

theorem digitChar_toNat (d : Nat) (h : d < 10) : (digitChar d).toNat = 48 + d := by
  interval_cases d <;> decide

theorem digitsVal_append_digit (l : List Char) (c : Char) :
    digitsVal (l ++ [c]) = 10 * digitsVal l + (c.toNat - 48) := by
  simp [digitsVal, List.foldl_append]

theorem natDecimal_good (n : Nat) : ∀ c ∈ natDecimal n, GoodDigit c := by
  induction n using Nat.strong_induction_on with
  | _ n ih =>
    rw [natDecimal]
    split
    · intro c hc
      rw [List.mem_singleton] at hc
      subst hc
      exact goodDigit_digitChar n (by omega)
    · intro c hc
      rcases List.mem_append.mp hc with h1 | h2
      · exact ih (n / 10) (Nat.div_lt_self (by omega) (by omega)) c h1
      · rw [List.mem_singleton] at h2
        subst h2
        exact goodDigit_digitChar (n % 10) (Nat.mod_lt n (by omega))

theorem natDecimal_ne_nil (n : Nat) : natDecimal n ≠ [] := by
  rw [natDecimal]
  split
  · simp
  · simp

theorem digitsVal_natDecimal (n : Nat) : digitsVal (natDecimal n) = n := by
  induction n using Nat.strong_induction_on with
  | _ n ih =>
    rw [natDecimal]
    split
    · rename_i h
      simp [digitsVal, digitChar_toNat n h]
    · rename_i h
      rw [digitsVal_append_digit, ih (n / 10) (Nat.div_lt_self (by omega) (by omega)),
        digitChar_toNat (n % 10) (Nat.mod_lt n (by omega))]
      omega

theorem natDecimalCore_eq (fuel : Nat) :
    ∀ n acc, n < fuel → natDecimalCore fuel n acc = natDecimal n ++ acc := by
  induction fuel with
  | zero => intro n acc h; omega
  | succ f ih =>
    intro n acc h
    rw [natDecimalCore, natDecimal]
    by_cases h10 : n < 10
    · simp [h10]
    · have hdiv : n / 10 < n := Nat.div_lt_self (by omega) (by omega)
      simp only [if_neg h10, dif_neg h10]
      rw [ih (n / 10) (digitChar (n % 10) :: acc) (by omega), List.append_assoc]
      rfl

theorem pyDecimal_eq (n : Nat) : pyDecimal n = natDecimal n := by
  rw [pyDecimal, natDecimalCore_eq (n + 1) n [] (by omega), List.append_nil]

theorem digit_not_underscore (c : Char) (h : GoodDigit c) : c ≠ '_' := h.2.1

theorem digitsTail_cons_of_ne (c : Char) (rest : List Char) (hc : c ≠ '_') :
    digitsTail (c :: rest) = (c.isDigit && digitsTail rest) := by
  rw [digitsTail.eq_def]
  simp [hc]

theorem digitsTail_of_good (l : List Char) (h : ∀ c ∈ l, GoodDigit c) :
    digitsTail l = true := by
  induction l with
  | nil => rfl
  | cons c rest ih =>
    have hc : GoodDigit c := h c (List.mem_cons_self c rest)
    rw [digitsTail_cons_of_ne c rest hc.2.1]
    exact Bool.and_eq_true_iff.mpr
      ⟨hc.1, ih (fun x hx => h x (List.mem_cons_of_mem c hx))⟩

theorem digitsOk_of_good (l : List Char) (hne : l ≠ [])
    (h : ∀ c ∈ l, GoodDigit c) : digitsOk l = true := by
  cases l with
  | nil => exact absurd rfl hne
  | cons c rest =>
    rw [digitsOk]
    have hc : GoodDigit c := h c (List.mem_cons_self c rest)
    exact Bool.and_eq_true_iff.mpr
      ⟨hc.1, digitsTail_of_good rest (fun x hx => h x (List.mem_cons_of_mem c hx))⟩

theorem filter_underscore_of_good (l : List Char) (h : ∀ c ∈ l, GoodDigit c) :
    l.filter (fun x => x != '_') = l :=
  List.filter_eq_self.mpr (fun c hc => bne_iff_ne.mpr (h c hc).2.1)

theorem dropWhile_of_none (p : Char → Bool) (l : List Char)
    (h : ∀ c ∈ l, p c = false) : l.dropWhile p = l := by
  cases l with
  | nil => rfl
  | cons c rest =>
    rw [List.dropWhile_cons, h c (List.mem_cons_self c rest)]
    simp

theorem stripWs_of_good (l : List Char) (h : ∀ c ∈ l, GoodDigit c) :
    stripWs l = l := by
  unfold stripWs
  rw [dropWhile_of_none isPySpace l (fun c hc => (h c hc).2.2.2.2),
    dropWhile_of_none isPySpace l.reverse
      (fun c hc => (h c (List.mem_reverse.mp hc)).2.2.2.2),
    List.reverse_reverse]

theorem pythonIntCore_of_good (l : List Char) (hne : l ≠ [])
    (h : ∀ c ∈ l, GoodDigit c) :
    pythonIntCore l = some ((digitsVal l : Nat) : Int) := by
  cases l with
  | nil => exact absurd rfl hne
  | cons c rest =>
    have hc : GoodDigit c := h c (List.mem_cons_self c rest)
    rw [pythonIntCore]
    simp only [if_neg hc.2.2.1, if_neg hc.2.2.2.1]
    rw [if_pos (digitsOk_of_good (c :: rest) (by simp) h),
      filter_underscore_of_good (c :: rest) h]

theorem digitsVal_replicate_zero (k : Nat) (l : List Char) :
    digitsVal (List.replicate k '0' ++ l) = digitsVal l := by
  induction k with
  | zero => rfl
  | succ m ih =>
    rw [List.replicate_succ, List.cons_append]
    simpa [digitsVal] using ih

theorem goodDigit_zero : GoodDigit '0' := by decide

theorem leftPad_good (w : Nat) (l : List Char) (h : ∀ c ∈ l, GoodDigit c) :
    ∀ c ∈ leftPad w '0' l, GoodDigit c := by
  intro c hc
  rcases List.mem_append.mp hc with h1 | h2
  · rw [List.mem_replicate] at h1
    rw [h1.2]
    exact goodDigit_zero
  · exact h c h2

/-- Round trip between the 04d formatter and int(): the generated invoice
number parses back to the integer it came from (non-negative case). -/
theorem pythonInt_pyFormat04d (n : Int) (h : 0 ≤ n) :
    pythonInt (pyFormat04d n) = some n := by
  rw [pyFormat04d, if_neg (by omega : ¬n < 0)]
  have hgood : ∀ c ∈ leftPad 4 '0' (pyDecimal n.toNat), GoodDigit c := by
    rw [pyDecimal_eq]
    exact leftPad_good 4 (natDecimal n.toNat) (natDecimal_good n.toNat)
  have hne : leftPad 4 '0' (pyDecimal n.toNat) ≠ [] := by
    rw [pyDecimal_eq, leftPad]
    intro hcontra
    exact natDecimal_ne_nil n.toNat (List.append_eq_nil.mp hcontra).2
  rw [pythonInt]
  show pythonIntCore (stripWs (leftPad 4 '0' (pyDecimal n.toNat))) = some n
  rw [stripWs_of_good _ hgood, pythonIntCore_of_good _ hne hgood, pyDecimal_eq, leftPad,
    digitsVal_replicate_zero, digitsVal_natDecimal, Int.toNat_of_nonneg h]

theorem generate_rejected (db : DB) (draft : Draft) (discount : ℚ)
    (uid ts date : String) (h : accepts draft.items = false) :
    generate db draft discount uid ts date = (db, none) := by
  cases h1 : incomplete_item_exists draft.items with
  | true => rw [generate]; simp [h1]
  | false =>
    have h2 : is_valid_items draft.items = false := by
      rw [accepts, h1] at h
      simpa using h
    rw [generate]
    simp [h1, h2]

theorem generate_accepted (db : DB) (draft : Draft) (discount : ℚ)
    (uid ts date : String) (h : accepts draft.items = true) :
    generate db draft discount uid ts date =
      (log_invoice db ts draft.vendor.name (next_number db)
          (subtotal draft.items - discount)
          (assembleDoc db draft discount ts date) uid,
       some (assembleDoc db draft discount ts date)) := by
  rw [accepts, Bool.and_eq_true] at h
  rw [generate]
  simp only [Bool.not_eq_true'] at h
  simp [h.1, h.2]

theorem find?_append_of_none {α : Type} (p : α → Bool) (l₁ l₂ : List α)
    (h : List.find? p l₁ = none) :
    List.find? p (l₁ ++ l₂) = List.find? p l₂ := by
  rw [List.find?_append, h, Option.none_or]

/-- Invariant of reachable database states: the most recent summary row keeps
the greatest invoice number, every stored invoice number parses, and the
current counter is non-negative. -/
theorem reachable_invariant (db : DB) (h : Reachable db) :
    0 ≤ get_last_invoice_no_from_db db ∧
      ∀ r ∈ db.invoices, ∃ v, pythonInt r.invoice_no = some v ∧
        v ≤ get_last_invoice_no_from_db db := by
  induction h with
  | init =>
    constructor
    · decide
    · intro r hr
      exact absurd hr (List.not_mem_nil r)
  | step db draft discount uid ts date _hdb ih =>
    cases hacc : accepts draft.items with
    | false =>
      rw [generate_rejected db draft discount uid ts date hacc]
      exact ih
    | true =>
      rw [generate_accepted db draft discount uid ts date hacc]
      have h0 : 0 ≤ get_last_invoice_no_from_db db := ih.1
      have hparse : pythonInt (next_number db) =
          some (get_last_invoice_no_from_db db + 1) := by
        rw [next_number]
        exact pythonInt_pyFormat04d _ (by omega)
      have hlast : get_last_invoice_no_from_db
          (log_invoice db ts draft.vendor.name (next_number db)
            (subtotal draft.items - discount)
            (assembleDoc db draft discount ts date) uid) =
          get_last_invoice_no_from_db db + 1 := by
        rw [get_last_invoice_no_from_db, log_invoice]
        simp only [List.getLast?_concat, hparse]
      constructor
      · rw [hlast]; omega
      · intro r hr
        rw [log_invoice] at hr
        rcases List.mem_append.mp hr with h1 | h2
        · obtain ⟨v, hv, hvle⟩ := ih.2 r h1
          exact ⟨v, hv, by rw [hlast]; omega⟩
        · rw [List.mem_singleton] at h2
          subst h2
          exact ⟨get_last_invoice_no_from_db db + 1, hparse, by rw [hlast]⟩

/-- Claim C1 counterexample: in the state c1db the most recently inserted
invoice number is 0003 while the highest issued number is 0009; the code
generates 0004, not the 0010 demanded by the claim, so the next number does
not come from the highest previously issued number. -/
theorem c1_counterexample :
    next_number c1db = "0004" ∧ specHighestNext c1db = "0010" ∧
      next_number c1db ≠ specHighestNext c1db :=
  ⟨by decide, by decide, by decide⟩

/-- Claim C1 (amended): on document creation the next invoice number equals
the invoice number of the most recently inserted record (regardless of
owner), parsed as an integer, incremented by 1 and zero-padded to 4 digits. -/
theorem c1_next_number_from_most_recent (db : DB) (draft : Draft)
    (discount : ℚ) (uid ts date : String) (r : SummaryRow) (v : Int)
    (hacc : accepts draft.items = true)
    (hr : db.invoices.getLast? = some r)
    (hv : pythonInt r.invoice_no = some v) :
    ∃ doc, (generate db draft discount uid ts date).2 = some doc ∧
      doc.invoice_info.invoice_no = pyFormat04d (v + 1) := by
  rw [generate_accepted db draft discount uid ts date hacc]
  refine ⟨assembleDoc db draft discount ts date, rfl, ?_⟩
  show next_number db = pyFormat04d (v + 1)
  rw [next_number, get_last_invoice_no_from_db, hr]
  simp [hv]

/-- Claim C1 witness: with most recent stored number 0007 and a valid draft,
the generated document carries number 0008. -/
theorem c1_witness :
    accepts exDraft.items = true ∧
    c1wdb.invoices.getLast? = some ⟨"t", "Shop", "0007", 1, "u"⟩ ∧
    pythonInt "0007" = some 7 ∧
    (∃ doc, (generate c1wdb exDraft 0 "u" "ts" "d").2 = some doc ∧
      doc.invoice_info.invoice_no = pyFormat04d (7 + 1)) ∧
    pyFormat04d (7 + 1) = "0008" :=
  ⟨by decide, by decide, by decide,
   c1_next_number_from_most_recent c1wdb exDraft 0 "u" "ts" "d"
     ⟨"t", "Shop", "0007", 1, "u"⟩ 7 (by decide) (by decide) (by decide),
   by decide⟩

/-- Claim C2 counterexample: c2items contains a fully valid item (name A,
quantity 1, price 1), yet the handler rejects the list because the named item
B has price 0; acceptance is therefore not equivalent to the existence of one
valid item. -/
theorem c2_counterexample :
    (∃ it ∈ c2items, it.name ≠ "" ∧ 0 < it.quantity ∧ 0 < it.price) ∧
      accepts c2items = false :=
  ⟨by decide, by decide⟩

/-- Claim C2 (amended): the item list is accepted iff at least one item has a
non-empty name, positive quantity and positive price, and additionally no
item pairs a non-empty name with a non-positive quantity or price. -/
theorem c2_acceptance_iff (items : List Item) :
    accepts items = true ↔
      ((∃ it ∈ items, it.name ≠ "" ∧ 0 < it.quantity ∧ 0 < it.price) ∧
       ∀ it ∈ items, it.name ≠ "" → 0 < it.quantity ∧ 0 < it.price) := by
  rw [accepts, Bool.and_eq_true, Bool.not_eq_true']
  rw [and_comm]
  apply and_congr
  · rw [is_valid_items, List.any_eq_true]
    apply exists_congr
    intro it
    apply and_congr_right
    intro _
    simp [Bool.and_eq_true, decide_eq_true_eq, Bool.not_eq_true',
      beq_eq_false_iff_ne, and_assoc]
  · rw [incomplete_item_exists, List.any_eq_false]
    apply forall_congr'
    intro it
    apply imp_congr_right
    intro _
    simp [Bool.and_eq_true, Bool.or_eq_true, decide_eq_true_eq,
      Bool.not_eq_true', beq_eq_false_iff_ne, not_and, not_or, not_le]

/-- Claim C3: for every accepted generation, the document's subtotal is the
sum of its items' line totals, each line total is quantity times unit price,
and the grand total is subtotal minus discount, with no clamping. -/
theorem c3_totals (db : DB) (draft : Draft) (discount : ℚ)
    (uid ts date : String) (hacc : accepts draft.items = true) :
    ∃ doc, (generate db draft discount uid ts date).2 = some doc ∧
      doc.subtotal = (doc.items.map DocItem.line_total).sum ∧
      (∀ it ∈ doc.items, it.line_total = (it.quantity : ℚ) * it.price) ∧
      doc.discount = discount ∧
      doc.grand_total = doc.subtotal - doc.discount := by
  rw [generate_accepted db draft discount uid ts date hacc]
  refine ⟨assembleDoc db draft discount ts date, rfl, ?_, ?_, rfl, rfl⟩
  · show subtotal draft.items =
      ((draft.items.map assembleItem).map DocItem.line_total).sum
    rw [List.map_map]
    rfl
  · intro it hit
    obtain ⟨a, _ha, rfl⟩ := List.mem_map.mp hit
    rfl

/-- Claim C3 witness: for items qty 2 x 10 and qty 1 x 5 with discount 3, the
generated document has subtotal 25 and grand total 22. -/
theorem c3_witness :
    accepts c3draft.items = true ∧
    ((generate ⟨[], []⟩ c3draft 3 "u" "t" "d").2.map
        (fun d => (d.subtotal, d.grand_total))) = some ((25 : ℚ), (22 : ℚ)) ∧
    (∃ doc, (generate ⟨[], []⟩ c3draft 3 "u" "t" "d").2 = some doc ∧
      doc.subtotal = (doc.items.map DocItem.line_total).sum ∧
      (∀ it ∈ doc.items, it.line_total = (it.quantity : ℚ) * it.price) ∧
      doc.discount = 3 ∧
      doc.grand_total = doc.subtotal - doc.discount) :=
  ⟨by decide,
   by
     rw [generate_accepted ⟨[], []⟩ c3draft 3 "u" "t" "d" (by decide)]
     simp [assembleDoc, subtotal, line_total_of, c3draft]
     norm_num,
   c3_totals ⟨[], []⟩ c3draft 3 "u" "t" "d" (by decide)⟩

/-- Claim C4 counterexample: the store already holds document c4docA under
key (0001, u); storing the different document c4docB under the same invoice
number and owner and then retrieving by that key returns the old c4docA, not
the document just stored, so the round trip fails on such states. -/
theorem c4_counterexample :
    c4docB.invoice_info.invoice_no = "0001" ∧
    get_full_invoice_data "0001" "u"
        (log_invoice c4db "t2" "Other" "0001" 5 c4docB "u") = some c4docA ∧
    c4docA ≠ c4docB :=
  ⟨by decide, by decide, by decide⟩

/-- Claim C4 (amended): storing a document and retrieving it by its invoice
number and owner id returns the same document, provided no already-stored
full row carries that same invoice number and owner id (which holds whenever
the number is freshly generated). -/
theorem c4_roundtrip (db : DB) (doc : InvoiceDoc) (ts vendor : String)
    (total : ℚ) (uid : String)
    (hfresh : ∀ r ∈ db.invoices_full,
      ¬(r.invoice_no = doc.invoice_info.invoice_no ∧ r.user_id = uid)) :
    get_full_invoice_data doc.invoice_info.invoice_no uid
        (log_invoice db ts vendor doc.invoice_info.invoice_no total doc uid) =
      some doc := by
  have hnone : db.invoices_full.find?
      (fun r => r.invoice_no == doc.invoice_info.invoice_no && r.user_id == uid)
      = none := by
    rw [List.find?_eq_none]
    intro r hr hp
    rw [Bool.and_eq_true, beq_iff_eq, beq_iff_eq] at hp
    exact hfresh r hr hp
  rw [get_full_invoice_data, log_invoice]
  rw [find?_append_of_none _ _ _ hnone]
  simp [List.find?]

/-- Claim C4 witness: on an empty store the freshness condition holds and the
stored document is retrieved unchanged. -/
theorem c4_witness :
    (∀ r ∈ (⟨[], []⟩ : DB).invoices_full,
      ¬(r.invoice_no = c4docB.invoice_info.invoice_no ∧ r.user_id = "u")) ∧
    get_full_invoice_data c4docB.invoice_info.invoice_no "u"
        (log_invoice ⟨[], []⟩ "t" "Shop" c4docB.invoice_info.invoice_no 5
          c4docB "u") = some c4docB :=
  ⟨by decide, c4_roundtrip ⟨[], []⟩ c4docB "t" "Shop" 5 "u" (by decide)⟩

/-- Claim C5: when no summary row exists, or the most recently inserted
invoice number does not parse as an integer, the generated document carries
invoice number 0001. -/
theorem c5_numbering_starts_at_one (db : DB) (draft : Draft) (discount : ℚ)
    (uid ts date : String) (hacc : accepts draft.items = true)
    (hbase : db.invoices.getLast? = none ∨
      ∃ r, db.invoices.getLast? = some r ∧ pythonInt r.invoice_no = none) :
    ∃ doc, (generate db draft discount uid ts date).2 = some doc ∧
      doc.invoice_info.invoice_no = "0001" := by
  rw [generate_accepted db draft discount uid ts date hacc]
  refine ⟨assembleDoc db draft discount ts date, rfl, ?_⟩
  show next_number db = "0001"
  have h0 : get_last_invoice_no_from_db db = 0 := by
    rw [get_last_invoice_no_from_db]
    rcases hbase with h | ⟨r, hr, hp⟩
    · rw [h]
    · rw [hr]
      simp [hp]
  rw [next_number, h0]
  decide

/-- Claim C5 witness: the most recent stored number INV-7 is unparseable, and
generation on that state yields invoice number 0001. -/
theorem c5_witness :
    accepts exDraft.items = true ∧
    (∃ r, c5db.invoices.getLast? = some r ∧ pythonInt r.invoice_no = none) ∧
    (∃ doc, (generate c5db exDraft 0 "u" "t" "d").2 = some doc ∧
      doc.invoice_info.invoice_no = "0001") :=
  ⟨by decide, ⟨⟨"t", "Shop", "INV-7", 1, "u"⟩, by decide, by decide⟩,
   c5_numbering_starts_at_one c5db exDraft 0 "u" "t" "d" (by decide)
     (Or.inr ⟨⟨"t", "Shop", "INV-7", 1, "u"⟩, by decide, by decide⟩)⟩

/-- Claim C6: every row returned by the listing query belongs to the
requesting owner. -/
theorem c6_listing_owner_scoped (uid : String) (db : DB) (r : SummaryRow)
    (h : r ∈ get_invoices_from_db uid db) : r.user_id = uid := by
  rw [get_invoices_from_db] at h
  exact beq_iff_eq.mp (List.mem_filter.mp h).2

/-- Claim C6 witness: in a store with rows of owners u1 and u2, the u1 row is
listed for u1 and carries owner u1. -/
theorem c6_witness :
    c6row ∈ get_invoices_from_db "u1" c6db ∧ c6row.user_id = "u1" :=
  ⟨by decide, c6_listing_owner_scoped "u1" c6db c6row (by decide)⟩

/-- Claim C7: on any reachable store, a successful (re)submission appends one
summary row and one full row, leaves every originally stored row in place,
and the invoice number it assigns differs from that of every previously
stored record, in particular from the number of a reloaded document. -/
theorem c7_append_only (db : DB) (draft : Draft) (discount : ℚ)
    (uid ts date : String) (hreach : Reachable db)
    (hacc : accepts draft.items = true) :
    ∃ srow frow,
      (generate db draft discount uid ts date).1.invoices =
        db.invoices ++ [srow] ∧
      (generate db draft discount uid ts date).1.invoices_full =
        db.invoices_full ++ [frow] ∧
      ∀ r ∈ db.invoices, r.invoice_no ≠ srow.invoice_no := by
  rw [generate_accepted db draft discount uid ts date hacc]
  obtain ⟨h0, hmax⟩ := reachable_invariant db hreach
  have hparse : pythonInt (next_number db) =
      some (get_last_invoice_no_from_db db + 1) := by
    rw [next_number]
    exact pythonInt_pyFormat04d _ (by omega)
  refine ⟨⟨ts, draft.vendor.name, next_number db,
      subtotal draft.items - discount, uid⟩,
    ⟨ts, next_number db, assembleDoc db draft discount ts date, uid⟩,
    rfl, rfl, ?_⟩
  intro r hr heq
  obtain ⟨v, hv, hvle⟩ := hmax r hr
  have heq' : r.invoice_no = next_number db := heq
  rw [heq', hparse] at hv
  simp only [Option.some.injEq] at hv
  omega

/-- Claim C7 witness: resubmitting on the reachable one-document state s1
appends and assigns a number differing from all stored ones. -/
theorem c7_witness :
    Reachable s1 ∧ accepts exDraft.items = true ∧
    (∃ srow frow,
      (generate s1 exDraft 0 "u" "t1" "d1").1.invoices = s1.invoices ++ [srow] ∧
      (generate s1 exDraft 0 "u" "t1" "d1").1.invoices_full =
        s1.invoices_full ++ [frow] ∧
      ∀ r ∈ s1.invoices, r.invoice_no ≠ srow.invoice_no) :=
  ⟨Reachable.step ⟨[], []⟩ exDraft 0 "u" "t0" "d0" Reachable.init, by decide,
   c7_append_only s1 exDraft 0 "u" "t1" "d1"
     (Reachable.step ⟨[], []⟩ exDraft 0 "u" "t0" "d0" Reachable.init)
     (by decide)⟩

/-- Claim C8: in either rejection branch of item validation, the generation
handler writes nothing to either table and produces no document. -/
theorem c8_no_partial_save (db : DB) (draft : Draft) (discount : ℚ)
    (uid ts date : String)
    (h : incomplete_item_exists draft.items = true ∨
      is_valid_items draft.items = false) :
    (generate db draft discount uid ts date).1.invoices = db.invoices ∧
    (generate db draft discount uid ts date).1.invoices_full =
      db.invoices_full ∧
    (generate db draft discount uid ts date).2 = none := by
  have hacc : accepts draft.items = false := by
    rw [accepts]
    rcases h with h | h
    · rw [h]
      rfl
    · rw [h]
      simp
  rw [generate_rejected db draft discount uid ts date hacc]
  exact ⟨rfl, rfl, rfl⟩

/-- Claim C8 witness: a named item with quantity 0 triggers the first
rejection branch and the empty store is left unchanged. -/
theorem c8_witness :
    (incomplete_item_exists c8draft.items = true ∨
      is_valid_items c8draft.items = false) ∧
    (generate ⟨[], []⟩ c8draft 0 "u" "t" "d").1.invoices =
      (⟨[], []⟩ : DB).invoices ∧
    (generate ⟨[], []⟩ c8draft 0 "u" "t" "d").1.invoices_full =
      (⟨[], []⟩ : DB).invoices_full ∧
    (generate ⟨[], []⟩ c8draft 0 "u" "t" "d").2 = none :=
  ⟨Or.inl (by decide),
   c8_no_partial_save ⟨[], []⟩ c8draft 0 "u" "t" "d" (Or.inl (by decide))⟩

/-- Claim C9: on every reachable store the summary table and the full table
line up row by row: each append committed both rows together with the same
invoice number, timestamp and owner, and the summary total equals the stored
document's grand total; hence a summary row exists iff its full row does. -/
theorem c9_summary_full_in_sync (db : DB) (h : Reachable db) :
    List.Forall₂ rowsMatch db.invoices db.invoices_full := by
  induction h with
  | init => exact List.Forall₂.nil
  | step db draft discount uid ts date _hdb ih =>
    cases hacc : accepts draft.items with
    | false =>
      rw [generate_rejected db draft discount uid ts date hacc]
      exact ih
    | true =>
      rw [generate_accepted db draft discount uid ts date hacc]
      exact List.rel_append ih
        (List.Forall₂.cons ⟨rfl, rfl, rfl, rfl⟩ List.Forall₂.nil)

/-- Claim C9 witness: the reachable one-document state s1 satisfies the
row-by-row correspondence. -/
theorem c9_witness :
    Reachable s1 ∧ List.Forall₂ rowsMatch s1.invoices s1.invoices_full :=
  ⟨Reachable.step ⟨[], []⟩ exDraft 0 "u" "t0" "d0" Reachable.init,
   c9_summary_full_in_sync s1
     (Reachable.step ⟨[], []⟩ exDraft 0 "u" "t0" "d0" Reachable.init)⟩

/-- Claim C10: retrieval returns a document iff some stored full row matches
both the requested invoice number and the requesting owner id; in
particular a number stored only under a different owner yields none. -/
theorem c10_lookup_iff (no uid : String) (db : DB) :
    (get_full_invoice_data no uid db).isSome = true ↔
      ∃ r ∈ db.invoices_full, r.invoice_no = no ∧ r.user_id = uid := by
  rw [get_full_invoice_data, Option.isSome_map', List.find?_isSome]
  constructor
  · rintro ⟨r, hr, hp⟩
    rw [Bool.and_eq_true, beq_iff_eq, beq_iff_eq] at hp
    exact ⟨r, hr, hp⟩
  · rintro ⟨r, hr, h1, h2⟩
    refine ⟨r, hr, ?_⟩
    rw [Bool.and_eq_true, beq_iff_eq, beq_iff_eq]
    exact ⟨h1, h2⟩
